import Mathlib

/-!
Shallow embedding of the Flask microservice in `app/main.py`.

The service is a request gateway with five handlers: `/health`, `/ready`,
`GET /api/users`, `POST /api/users` and `/api/cache/<key>`.  Two handlers
consult external collaborators: a Redis cache client and a PostgreSQL
connection, both held in process-wide optional handles (`redis_client`,
`postgres_conn`) that may be `None` when initialization failed or never ran.

Collaborator calls are modelled as `Except String` values: `Except.ok`
for a call that returns normally and `Except.error e` for a call that
raises an exception whose Python stringification `str(e)` is `e`.
Handlers that touch collaborators also return the list of collaborators
they actually contacted, so that skipping and short-circuiting are
observable in the model.
-/

namespace App

/-- JSON values, as produced by Flask's `jsonify`.  Object fields keep
their insertion order, as in the source. -/
inductive Json where
  | null
  | bool (b : Bool)
  | num (n : Int)
  | str (s : String)
  | arr (items : List Json)
  | obj (fields : List (String × Json))

/-- Field lookup in a JSON object (first match); `none` on non-objects. -/
def Json.lookup : Json → String → Option Json
  | .obj fields, k => List.lookup k fields
  | _, _ => none

/-- An HTTP response: status code plus JSON body.  `jsonify(x)` is
status 200 with body `x`; `jsonify(x), n` is status `n` with body `x`. -/
structure Response where
  status : Nat
  body : Json

/-- The Redis client handle: the outcome of `ping()` and of `get(key)`.
`get` returns the stored string, or `none` when the key is absent
(Redis nil), or raises. -/
structure RedisClient where
  pingResult : Except String Unit
  getResult : String → Except String (Option String)

/-- The PostgreSQL connection handle: the outcome of
`cursor(); cursor.execute('SELECT 1'); cursor.close()`. -/
structure PostgresConn where
  selectOneResult : Except String Unit

/-- Process-wide collaborator handles (`redis_client`, `postgres_conn`
globals); `none` models a handle that is Python `None`. -/
structure Env where
  redis_client : Option RedisClient
  postgres_conn : Option PostgresConn

/-- The two external collaborators, for the contact trace. -/
inductive Collab where
  | redis
  | postgres
  deriving DecidableEq

/-- A UTC timestamp as held by `datetime.utcnow()`. -/
structure UTCTime where
  year : Nat
  month : Nat
  day : Nat
  hour : Nat
  minute : Nat
  second : Nat
  microsecond : Nat

/-- Left-pad the decimal form of `n` with zeros to width `w`. -/
def pad (w : Nat) (n : Nat) : String :=
  let s := toString n
  String.mk (List.replicate (w - s.length) '0') ++ s

/-- `datetime.isoformat()`: `YYYY-MM-DDTHH:MM:SS[.ffffff]`, the
fractional part omitted when the microsecond field is zero. -/
def UTCTime.isoformat (t : UTCTime) : String :=
  pad 4 t.year ++ "-" ++ pad 2 t.month ++ "-" ++ pad 2 t.day ++ "T" ++
  pad 2 t.hour ++ ":" ++ pad 2 t.minute ++ ":" ++ pad 2 t.second ++
  (if t.microsecond = 0 then "" else "." ++ pad 6 t.microsecond)

/-- `GET /health` (`health_check`): returns 200 with status, timestamp
and version.  It reads neither collaborator handle, which the unused
environment argument and the empty contact trace make explicit.
`app_version` is `os.getenv('APP_VERSION')`, defaulting to `"1.0.0"`. -/
def health_check (_env : Env) (now : UTCTime) (app_version : Option String) :
    Response × List Collab :=
  (⟨200, .obj [("status", .str "healthy"),
               ("timestamp", .str now.isoformat),
               ("version", .str (app_version.getD "1.0.0"))]⟩, [])

/-- The PostgreSQL half of `readiness_check`, reached only when the Redis
half did not raise: if `postgres_conn` is set, run `SELECT 1`; on success
return 200 ready, on an exception fall to the handler's `except` clause. -/
def readinessPostgres (env : Env) (trace : List Collab) : Response × List Collab :=
  match env.postgres_conn with
  | some p =>
    match p.selectOneResult with
    | .error e =>
        (⟨503, .obj [("status", .str "not ready"), ("error", .str e)]⟩,
         trace ++ [.postgres])
    | .ok _ => (⟨200, .obj [("status", .str "ready")]⟩, trace ++ [.postgres])
  | none => (⟨200, .obj [("status", .str "ready")]⟩, trace)

/-- `GET /ready` (`readiness_check`): inside one `try`, ping Redis if the
handle is set, then run `SELECT 1` if the PostgreSQL handle is set; the
first exception raised jumps to the `except` clause, which returns 503
with `{'status': 'not ready', 'error': str(e)}`. -/
def readiness_check (env : Env) : Response × List Collab :=
  match env.redis_client with
  | some r =>
    match r.pingResult with
    | .error e =>
        (⟨503, .obj [("status", .str "not ready"), ("error", .str e)]⟩, [.redis])
    | .ok _ => readinessPostgres env [.redis]
  | none => readinessPostgres env []

/-- `GET /api/users`: the fixed two-record list. -/
def users_get : Response :=
  ⟨200, .obj [("users", .arr
    [.obj [("id", .num 1), ("name", .str "John Doe"),
           ("email", .str "john@example.com")],
     .obj [("id", .num 2), ("name", .str "Jane Smith"),
           ("email", .str "jane@example.com")]])]⟩

/-- `POST /api/users`: echo the parsed JSON body inside a confirmation
envelope with status 201; no validation, no state touched. -/
def users_post (body : Json) : Response :=
  ⟨201, .obj [("message", .str "User created successfully"), ("user", body)]⟩

/-- Python truthiness of the value returned by `redis_client.get`
(`decode_responses=True`, so a string or `None`): `None` and the empty
string are falsy. -/
def truthy : Option String → Bool
  | none => false
  | some s => !s.isEmpty

/-- `GET /api/cache/<key>` (`get_cache`): 503 when no Redis handle is
configured; otherwise `get(key)` — 200 with the key and value when the
result is truthy, 404 otherwise, and 500 with `str(e)` when the lookup
raises. -/
def get_cache (env : Env) (key : String) : Response :=
  match env.redis_client with
  | some r =>
    match r.getResult key with
    | .ok v =>
      if truthy v then
        ⟨200, .obj [("key", .str key), ("value", .str (v.getD ""))]⟩
      else
        ⟨404, .obj [("error", .str "Key not found")]⟩
    | .error e => ⟨500, .obj [("error", .str e)]⟩
  | none => ⟨503, .obj [("error", .str "Redis not available")]⟩

/-! ### Concrete collaborator states used by witnesses and counterexamples -/

/-- A Redis handle whose ping succeeds and whose store is empty. -/
def rOk : RedisClient := ⟨.ok (), fun _ => .ok none⟩

/-- A PostgreSQL handle whose `SELECT 1` succeeds. -/
def pOk : PostgresConn := ⟨.ok ()⟩

/-- Both collaborators configured and healthy. -/
def envOk : Env := ⟨some rOk, some pOk⟩

/-- Neither collaborator handle configured. -/
def envNone : Env := ⟨none, none⟩

/-- A Redis handle whose ping raises `ConnectionError("redis down")`,
alongside a PostgreSQL handle whose probe raises as well. -/
def rFail : RedisClient := ⟨.error "redis down", fun _ => .ok none⟩

/-- A PostgreSQL handle whose `SELECT 1` raises. -/
def pFail : PostgresConn := ⟨.error "pg down"⟩

/-- Both collaborators configured and both probes raising. -/
def envBothFail : Env := ⟨some rFail, some pFail⟩

/-- A Redis handle whose ping raises an exception that stringifies to
the empty string, as `Exception()` does. -/
def rEmptyMsg : RedisClient := ⟨.error "", fun _ => .ok none⟩

/-- Environment whose only configured collaborator raises an exception
with empty stringification during the readiness probe. -/
def envEmptyMsg : Env := ⟨some rEmptyMsg, none⟩

/-- A Redis handle storing the empty string under key `"k"`. -/
def rEmptyVal : RedisClient :=
  ⟨.ok (), fun k => if k = "k" then .ok (some "") else .ok none⟩

/-- Environment whose cache store maps `"k"` to the empty string. -/
def envEmptyVal : Env := ⟨some rEmptyVal, none⟩

/-- A Redis handle whose ping raises `ConnectionError("connection refused")`. -/
def rRefused : RedisClient := ⟨.error "connection refused", fun _ => .ok none⟩

/-- Environment whose cache probe raises with message "connection refused". -/
def envRefused : Env := ⟨some rRefused, none⟩

/-! ### Helper lemmas -/

/-- The ISO format string always contains its literal separators. -/
theorem isoformat_length_pos (t : UTCTime) : 0 < t.isoformat.length := by
  have h : ("-" : String).length = 1 := rfl
  simp only [UTCTime.isoformat, String.length_append]
  omega

/-- The ISO timestamp is never the empty string. -/
theorem isoformat_ne_empty (t : UTCTime) : t.isoformat ≠ "" := by
  intro h
  have hpos := isoformat_length_pos t
  rw [h] at hpos
  simp at hpos

/-- Looking up "error" in the failure payload yields the carried cause. -/
theorem lookup_error_str (s e : String) :
    (Json.obj [("status", Json.str s), ("error", Json.str e)]).lookup
      "error" = some (Json.str e) := rfl

/-! ### Claims -/

/-- C5: for every JSON body, `POST /api/users` returns HTTP 201 with
`message` equal to "User created successfully" and `user` equal to
exactly the input body.  `users_post` is a pure function of the body
alone — it takes no environment and mutates no state — so no validation
is performed and nothing is persisted. -/
theorem C5_users_post_echo (body : Json) :
    (users_post body).status = 201 ∧
    (users_post body).body.lookup "message" =
      some (.str "User created successfully") ∧
    (users_post body).body.lookup "user" = some body :=
  ⟨rfl, rfl, rfl⟩

/-- C6: `GET /api/users` is a constant of the program — every call
returns the identical HTTP 200 response whose `users` field is the same
two-element list with first element `{id: 1, name: "John Doe",
email: "john@example.com"}`; it takes no inputs and touches no state. -/
theorem C6_users_get_fixed :
    users_get.status = 200 ∧
    users_get.body.lookup "users" = some (.arr
      [.obj [("id", .num 1), ("name", .str "John Doe"),
             ("email", .str "john@example.com")],
       .obj [("id", .num 2), ("name", .str "Jane Smith"),
             ("email", .str "jane@example.com")]]) :=
  ⟨rfl, rfl⟩

/-- C7: `GET /health` always returns HTTP 200 with status field
"healthy", the non-empty ISO-8601 timestamp of the current time, and a
version string; its response is identical under any two collaborator
environments and its contact trace is empty, so it consults no
collaborator and has no failure path. -/
theorem C7_health_check_total (env env' : Env) (now : UTCTime)
    (v : Option String) :
    (health_check env now v).1.status = 200 ∧
    (health_check env now v).1.body.lookup "status" =
      some (.str "healthy") ∧
    (health_check env now v).1.body.lookup "timestamp" =
      some (.str now.isoformat) ∧
    now.isoformat ≠ "" ∧
    (health_check env now v).1.body.lookup "version" =
      some (.str (v.getD "1.0.0")) ∧
    (health_check env now v).2 = [] ∧
    health_check env now v = health_check env' now v :=
  ⟨rfl, rfl, rfl, isoformat_ne_empty now, rfl, rfl, rfl⟩

/-- C9: a `None` collaborator handle makes `readiness_check` skip that
collaborator entirely (it never appears in the contact trace), and with
both handles `None` the endpoint returns HTTP 200 `{status: "ready"}`
having contacted nobody. -/
theorem C9_readiness_skips_unset (env : Env) :
    (env.redis_client = none → Collab.redis ∉ (readiness_check env).2) ∧
    (env.postgres_conn = none → Collab.postgres ∉ (readiness_check env).2) ∧
    (env.redis_client = none → env.postgres_conn = none →
      readiness_check env = (⟨200, .obj [("status", .str "ready")]⟩, [])) := by
  obtain ⟨rc, pc⟩ := env
  refine ⟨?_, ?_, ?_⟩
  · rintro rfl
    cases pc with
    | none => simp [readiness_check, readinessPostgres]
    | some p =>
      cases hp : p.selectOneResult <;>
        simp [readiness_check, readinessPostgres, hp]
  · rintro rfl
    cases rc with
    | none => simp [readiness_check, readinessPostgres]
    | some r =>
      cases hr : r.pingResult <;>
        simp [readiness_check, readinessPostgres, hr]
  · rintro rfl rfl
    simp [readiness_check, readinessPostgres]

/-- C9 witness: with both handles unset, readiness is 200 ready and the
contact trace is empty. -/
theorem C9_witness :
    readiness_check envNone = (⟨200, .obj [("status", .str "ready")]⟩, []) :=
  (C9_readiness_skips_unset envNone).2.2 rfl rfl

/-- C10: when the stored value of a key is the empty string, the cache
endpoint returns 404 `{error: "Key not found"}` rather than 200, because
the handler decides presence by Python truthiness of the value returned
by `get`, and the empty string is falsy. -/
theorem C10_empty_value_not_found (env : Env) (r : RedisClient)
    (key : String) (hr : env.redis_client = some r)
    (hv : r.getResult key = .ok (some "")) :
    get_cache env key = ⟨404, .obj [("error", .str "Key not found")]⟩ := by
  simp [get_cache, hr, hv, truthy]
  rfl

/-- C10 witness: the concrete store mapping "k" to "" yields 404. -/
theorem C10_witness :
    get_cache envEmptyVal "k" =
      ⟨404, .obj [("error", .str "Key not found")]⟩ :=
  C10_empty_value_not_found envEmptyVal rEmptyVal "k" rfl rfl

/-- C3: the readiness probe order and short-circuit.  Whenever the Redis
handle is configured, the contact trace starts with the cache store; if
its ping raises `e`, the response is exactly 503 with error `e` and the
trace is `[redis]` alone — the relational store is never contacted, for
any state of its handle, so at most one failure is ever reported and the
error string is exactly the first failing probe, never an aggregate.  If
the cache side did not raise (handle unset or ping succeeding) and the
relational probe raises `e`, the same 503 shape carries `e` and the
relational store appears in the trace. -/
theorem C3_readiness_first_failure (env : Env) :
    (∀ r, env.redis_client = some r →
      ∃ rest, (readiness_check env).2 = Collab.redis :: rest) ∧
    (∀ r e, env.redis_client = some r → r.pingResult = .error e →
      readiness_check env =
        (⟨503, .obj [("status", .str "not ready"), ("error", .str e)]⟩,
         [Collab.redis])) ∧
    (∀ p e, env.postgres_conn = some p → p.selectOneResult = .error e →
      (env.redis_client = none ∨
        ∃ r, env.redis_client = some r ∧ r.pingResult = .ok ()) →
      (readiness_check env).1 =
        ⟨503, .obj [("status", .str "not ready"), ("error", .str e)]⟩ ∧
      Collab.postgres ∈ (readiness_check env).2) := by
  obtain ⟨rc, pc⟩ := env
  refine ⟨?_, ?_, ?_⟩
  · rintro r rfl
    cases hr : r.pingResult with
    | error e => exact ⟨[], by simp [readiness_check, hr]⟩
    | ok u =>
      cases pc with
      | none =>
        exact ⟨[], by simp [readiness_check, readinessPostgres, hr]⟩
      | some p =>
        cases hp : p.selectOneResult with
        | error e =>
          exact ⟨[.postgres],
            by simp [readiness_check, readinessPostgres, hr, hp]⟩
        | ok u2 =>
          exact ⟨[.postgres],
            by simp [readiness_check, readinessPostgres, hr, hp]⟩
  · rintro r e rfl hr
    simp [readiness_check, hr]
  · rintro p e rfl hp (h | ⟨r, hr, hping⟩)
    · subst h
      simp [readiness_check, readinessPostgres, hp]
    · subst hr
      simp [readiness_check, readinessPostgres, hping, hp]

/-- C3 witness: with both probes failing, only the cache failure is
reported and the relational store is never contacted. -/
theorem C3_witness :
    readiness_check envBothFail =
      (⟨503, .obj [("status", .str "not ready"),
                   ("error", .str "redis down")]⟩, [Collab.redis]) :=
  (C3_readiness_first_failure envBothFail).2.1 rFail "redis down" rfl rfl

/-- C1 counterexample: the cache probe raises an exception whose
stringification is empty (as `raise Exception()` produces).  The handler
returns 503 as claimed, but the error string it carries is the empty
string — the claimed "non-empty error string" fails. -/
theorem C1_counterexample :
    envEmptyMsg.redis_client.map RedisClient.pingResult =
      some (Except.error "") ∧
    (readiness_check envEmptyMsg).1.status = 503 ∧
    (readiness_check envEmptyMsg).1.body.lookup "error" =
      some (.str "") ∧
    ("" : String).isEmpty = true :=
  ⟨rfl, rfl, rfl, rfl⟩

/-- C1 (amended): readiness returns HTTP 200 with status "ready" when
every configured probe succeeds, and HTTP 503 whose error string equals
the stringified cause of the first failing probe; that error string is
empty exactly when the stringified cause is empty. -/
theorem C1_readiness_contract (env : Env) :
    ((∀ r, env.redis_client = some r → r.pingResult = .ok ()) →
     (∀ p, env.postgres_conn = some p → p.selectOneResult = .ok ()) →
      (readiness_check env).1 = ⟨200, .obj [("status", .str "ready")]⟩) ∧
    (∀ e,
      ((∃ r, env.redis_client = some r ∧ r.pingResult = .error e) ∨
       ((∀ r, env.redis_client = some r → r.pingResult = .ok ()) ∧
        ∃ p, env.postgres_conn = some p ∧ p.selectOneResult = .error e)) →
      (readiness_check env).1.status = 503 ∧
      (readiness_check env).1.body.lookup "error" = some (.str e) ∧
      ((readiness_check env).1.body.lookup "error" = some (.str "") ↔
        e = "")) := by
  obtain ⟨rc, pc⟩ := env
  constructor
  · intro hr hp
    cases rc with
    | none =>
      cases pc with
      | none => simp [readiness_check, readinessPostgres]
      | some p =>
        have hsel := hp p rfl
        simp [readiness_check, readinessPostgres, hsel]
    | some r =>
      have hping := hr r rfl
      cases pc with
      | none => simp [readiness_check, readinessPostgres, hping]
      | some p =>
        have hsel := hp p rfl
        simp [readiness_check, readinessPostgres, hping, hsel]
  · rintro e (⟨r, hr, hping⟩ | ⟨hok, p, hp, hsel⟩)
    · subst hr
      have hresp : readiness_check ⟨some r, pc⟩ =
          (⟨503, .obj [("status", .str "not ready"),
                       ("error", .str e)]⟩, [Collab.redis]) := by
        simp [readiness_check, hping]
      rw [hresp]
      exact ⟨rfl, rfl, by rw [lookup_error_str]; simp⟩
    · subst hp
      cases rc with
      | none =>
        have hresp : readiness_check ⟨none, some p⟩ =
            (⟨503, .obj [("status", .str "not ready"),
                         ("error", .str e)]⟩, [Collab.postgres]) := by
          simp [readiness_check, readinessPostgres, hsel]
        rw [hresp]
        exact ⟨rfl, rfl, by rw [lookup_error_str]; simp⟩
      | some r =>
        have hping := hok r rfl
        have hresp : readiness_check ⟨some r, some p⟩ =
            (⟨503, .obj [("status", .str "not ready"),
                         ("error", .str e)]⟩,
             [Collab.redis, Collab.postgres]) := by
          simp [readiness_check, readinessPostgres, hping, hsel]
        rw [hresp]
        exact ⟨rfl, rfl, by rw [lookup_error_str]; simp⟩

/-- C1 witness: with both collaborators healthy, readiness is 200 ready. -/
theorem C1_witness :
    (readiness_check envOk).1 = ⟨200, .obj [("status", .str "ready")]⟩ :=
  (C1_readiness_contract envOk).1
    (fun r hr => by injection hr with h; rw [← h]; rfl)
    (fun p hp => by injection hp with h; rw [← h]; rfl)

/-- C2 counterexample: key "k" is present in the store — `get` returns
the empty string, not nil — yet `get_cache` answers 404, not the 200 the
claim requires for a present key. -/
theorem C2_counterexample :
    rEmptyVal.getResult "k" = .ok (some "") ∧
    (get_cache envEmptyVal "k").status = 404 ∧
    ¬ (get_cache envEmptyVal "k").status = 200 :=
  ⟨rfl, rfl, by decide⟩

/-- C2 (amended): with no cache handle configured, 503 with error "Redis
not available"; with a handle, a lookup returning a non-empty value gives
200 with the key and value, a lookup returning nil or the empty string
gives 404 with error "Key not found", and a lookup that raises gives 500
with the stringified cause; a lookup of an absent key never returns 200. -/
theorem C2_get_cache_contract (env : Env) (key : String) :
    (env.redis_client = none →
      get_cache env key =
        ⟨503, .obj [("error", .str "Redis not available")]⟩) ∧
    (∀ r, env.redis_client = some r →
      (∀ v, r.getResult key = .ok (some v) → v ≠ "" →
        get_cache env key =
          ⟨200, .obj [("key", .str key), ("value", .str v)]⟩) ∧
      (∀ v, r.getResult key = .ok v → (v = none ∨ v = some "") →
        get_cache env key =
          ⟨404, .obj [("error", .str "Key not found")]⟩) ∧
      (∀ e, r.getResult key = .error e →
        get_cache env key = ⟨500, .obj [("error", .str e)]⟩) ∧
      (r.getResult key = .ok none → (get_cache env key).status ≠ 200)) := by
  obtain ⟨rc, pc⟩ := env
  constructor
  · rintro rfl
    simp [get_cache]
  · rintro r rfl
    refine ⟨?_, ?_, ?_, ?_⟩
    · intro v hv hne
      have hemp : v.isEmpty = false := by
        cases hb : v.isEmpty with
        | false => rfl
        | true => exact absurd ((String.isEmpty_iff v).1 hb) hne
      have ht : truthy (some v) = true := by simp [truthy, hemp]
      simp [get_cache, hv, ht]
    · rintro v hv (rfl | rfl)
      · simp [get_cache, hv, truthy]
      · have ht : truthy (some "") = false := rfl
        simp [get_cache, hv, ht]
    · intro e he
      simp [get_cache, he]
    · intro hv
      simp [get_cache, hv, truthy]

/-- C2 witness: with no cache handle, the endpoint answers 503 "Redis
not available" (in particular, a nonexistent key never yields 200). -/
theorem C2_witness :
    get_cache envNone "nonexistent" =
      ⟨503, .obj [("error", .str "Redis not available")]⟩ :=
  (C2_get_cache_contract envNone "nonexistent").1 rfl

/-- C4 counterexample: on a failing probe the status field of the 503
payload is the string "not ready", written with a space, not the
underscore form "not_ready" that the claim names. -/
theorem C4_counterexample :
    (readiness_check envRefused).1.status = 503 ∧
    (readiness_check envRefused).1.body.lookup "status" =
      some (.str "not ready") ∧
    (readiness_check envRefused).1.body.lookup "status" ≠
      some (.str "not_ready") := by
  refine ⟨rfl, rfl, ?_⟩
  intro h
  rw [show (readiness_check envRefused).1.body.lookup "status" =
        some (.str "not ready") from rfl] at h
  injection h with h1
  injection h1 with h2
  exact absurd h2 (by decide)

/-- C4 (amended): whenever readiness fails with 503, the status field of
the payload is the string "not ready" — the rendering of the not_ready
case spelled with a space — for every environment. -/
theorem C4_failure_status_string (env : Env)
    (h : (readiness_check env).1.status = 503) :
    (readiness_check env).1.body.lookup "status" =
      some (.str "not ready") := by
  obtain ⟨rc, pc⟩ := env
  cases rc with
  | some r =>
    cases hr : r.pingResult with
    | error e =>
      simp only [readiness_check, hr]
      rfl
    | ok u =>
      cases pc with
      | none => simp [readiness_check, readinessPostgres, hr] at h
      | some p =>
        cases hp : p.selectOneResult with
        | error e =>
          simp only [readiness_check, readinessPostgres, hr, hp]
          rfl
        | ok u2 =>
          simp [readiness_check, readinessPostgres, hr, hp] at h
  | none =>
    cases pc with
    | none => simp [readiness_check, readinessPostgres] at h
    | some p =>
      cases hp : p.selectOneResult with
      | error e =>
        simp only [readiness_check, readinessPostgres, hp]
        rfl
      | ok u2 =>
        simp [readiness_check, readinessPostgres, hp] at h

/-- C4 witness: at a concrete failing environment the status field of
the failure payload is "not ready". -/
theorem C4_witness :
    (readiness_check envRefused).1.body.lookup "status" =
      some (.str "not ready") :=
  C4_failure_status_string envRefused rfl

end App
